import Mathlib

/-!
Shallow embedding of the telegram-sidecar service (`src/telegram-sidecar/main.py`):
the account registry rows, the `messages` store, backfill (`sync_history`),
live capture (`handle_new_message`), the HTTP search handler (`handle_search`)
and the SQL text of `SEARCH_SQL` / `COUNT_SQL`, together with theorems checking
the specification's claims against this embedding.

Timestamps (`timestamptz`) are modelled as integers (epoch instants); JSON
metadata is modelled as the fixed record the code actually builds.
-/

namespace Sidecar

/-! ## Store rows

`main` creates the schema:
`accounts(id SERIAL PRIMARY KEY, source, label, identity, status, ...)` —
note that `id` is the ONLY unique constraint on `accounts`; and
`messages(id BIGSERIAL PRIMARY KEY, source, account_label, thread_id, sender_id,
sender_name, text, ts NOT NULL, metadata_json, ...)`.
-/

structure AccountRow where
  id : Nat
  source : String
  label : String
  identity : String
  status : String
deriving DecidableEq

/-- The `accounts` table: the serial sequence counter plus the stored rows.
`nextId` is the value the `SERIAL` sequence will hand to the next insert. -/
structure AccountsTable where
  nextId : Nat
  rows : List AccountRow
deriving DecidableEq

/-- A freshly created `accounts` table (the serial sequence starts at 1). -/
def accountsEmpty : AccountsTable := { nextId := 1, rows := [] }

/-- `INSERT INTO accounts ... ON CONFLICT DO NOTHING` against the schema of
`main`: the insert is skipped only when it would violate a constraint of the
table, and the only constraint on `accounts` is the primary key on the
serial `id` column.  The candidate row receives the fresh serial value
`t.nextId`, so the conflict test compares that fresh id against the stored
rows. -/
def accountsInsertOnConflictDoNothing (t : AccountsTable)
    (src label identity status : String) : AccountsTable :=
  if t.rows.any (fun r => r.id == t.nextId) then t
  else
    { nextId := t.nextId + 1
      rows := t.rows ++ [{ id := t.nextId, source := src, label := label,
                           identity := identity, status := status }] }

/-- `ensure_account_row` (main.py:60-70): inserts
`('telegram', label, phone, 'active')` with `ON CONFLICT DO NOTHING`. -/
def ensure_account_row (t : AccountsTable) (label phone : String) : AccountsTable :=
  accountsInsertOnConflictDoNothing t "telegram" label phone "active"

/-- Rows of the accounts table carrying a given label. -/
def rowsWithLabel (t : AccountsTable) (label : String) : List AccountRow :=
  t.rows.filter (fun r => r.label == label)

/-! ## Ingestion supervisor (`main`, main.py:338-344)

`main` spawns one `run_account` task per configured account and then runs
`await asyncio.gather(*tasks)` with the default `return_exceptions=False`:
the first exception raised by any task is re-raised by `gather` into `main`,
`main` terminates exceptionally, and `asyncio.run(main())` then cancels every
still-pending task (the sibling listeners and the HTTP site all live on this
loop) and exits the process.  `run_account` itself (main.py:130-169) contains
no exception handler, so a connection-level error (`client.start` failing,
a dropped session surfacing from `run_until_disconnected`) escapes the task.
-/

/-- Outcome of one `run_account` task: it either runs forever until process
shutdown (`ok`) or raises a connection-level exception (`exn`). -/
inductive TaskResult where
  | ok
  | exn (msg : String)
deriving DecidableEq

/-- `await asyncio.gather(*tasks)` with `return_exceptions=False`: re-raises
the first exceptional outcome; returns normally only if every task did. -/
def gatherResult : List TaskResult → TaskResult
  | [] => .ok
  | .ok :: rest => gatherResult rest
  | .exn e :: _ => .exn e

/-- The process exits iff the exception escapes `main`, i.e. iff `gather`
re-raised some task's exception (`asyncio.run` then cancels all remaining
tasks and propagates). -/
def processExits (rs : List TaskResult) : Bool :=
  match gatherResult rs with
  | .exn _ => true
  | .ok => false

/-- When `main` terminates, `asyncio.run` cancels every task still pending on
the loop: the sibling listeners do not keep running. -/
def siblingListenersSurvive (rs : List TaskResult) : Bool :=
  !(processExits rs)

/-! ## Ingestion: events, backfill and live capture

`sync_history` (main.py:101-127) and the `handle_new_message` handler
(main.py:146-167) both normalize a Telethon object into the parameters of
`insert_message` (main.py:73-98).  Telethon entity lookups (`get_sender`,
`get_chat`, `dialog.entity`) resolve to an entity object or to `None` when
the peer cannot be resolved; the attributes read via
`getattr(x, attr, None)` are modelled as optional fields. -/

/-- A Telethon user/chat entity as the code reads it: `id` (always present on
a resolved entity), and the optional `first_name` / `title` / `username`. -/
structure Entity where
  entId : Nat
  first_name : Option String
  title : Option String
  username : Option String
deriving DecidableEq

/-- The `metadata` dict built by both ingestion paths. -/
structure Metadata where
  chat_title : Option String
  chat_username : Option String
  message_id : Nat
deriving DecidableEq

/-- The row handed to `insert_message`: everything but the store-assigned id.
`ts` is an `Int` because the `ts` column is `NOT NULL` and every call site
passes a real datetime. -/
structure MessageInsert where
  account_label : String
  thread_id : Option String
  sender_id : Option String
  sender_name : Option String
  text : Option String
  ts : Int
  metadata : Metadata
deriving DecidableEq

/-- Python `a or b` on two optional strings: `None` and `""` are falsy, so
the right operand is returned whenever the left is absent or empty.  Used
for `getattr(sender, "first_name", None) or getattr(sender, "title", None)`. -/
def pyOrStr (a b : Option String) : Option String :=
  match a with
  | none => b
  | some s => if s == "" then b else some s

/-- `str(getattr(x, "id", "")) if x else None`. -/
def entityIdStr (e : Option Entity) : Option String :=
  e.map (fun x => toString x.entId)

/-- `getattr(sender, "first_name", None) or getattr(sender, "title", None)`;
when the lookup produced no entity both `getattr` calls see `None`. -/
def senderDisplayName (sender : Option Entity) : Option String :=
  pyOrStr (sender.bind (fun s => s.first_name)) (sender.bind (fun s => s.title))

/-- One historical message yielded by `client.iter_messages`: its id, its
(possibly absent) `date`, its (possibly absent) text, and the entity the
`msg.get_sender()` lookup resolves to (`none` on lookup failure). -/
structure HistMessage where
  msgId : Nat
  date : Option Int
  message : Option String
  senderEntity : Option Entity
deriving DecidableEq

/-- One dialog yielded by `client.iter_dialogs`: its entity attributes and
the historical messages `iter_messages` yields, most recent first. -/
structure Dialog where
  entId : Nat
  title : Option String
  username : Option String
  msgs : List HistMessage
deriving DecidableEq

/-- The row `sync_history` builds for one dated historical message of one
dialog (main.py:107-125). -/
def backfillRow (label : String) (d : Dialog) (m : HistMessage) (t : Int) : MessageInsert :=
  { account_label := label
    thread_id := some (toString d.entId)
    sender_id := entityIdStr m.senderEntity
    sender_name := senderDisplayName m.senderEntity
    text := m.message
    ts := t
    metadata := { chat_title := d.title, chat_username := d.username, message_id := m.msgId } }

/-- The inner message loop of `sync_history`: for each yielded message,
`if not msg.date: continue` skips undated messages; dated ones are written. -/
def backfillLoop (label : String) (d : Dialog) : List HistMessage → List MessageInsert
  | [] => []
  | m :: ms =>
    match m.date with
    | none => backfillLoop label d ms
    | some t => backfillRow label d m t :: backfillLoop label d ms

/-- `iter_messages(dialog.entity, limit=per_chat)` yields at most `per_chat`
messages; the date filter applies to those yielded messages. -/
def backfillDialog (label : String) (d : Dialog) (per_chat : Nat) : List MessageInsert :=
  backfillLoop label d (d.msgs.take per_chat)

/-- `sync_history` (main.py:101-127): the dialog loop, in order. -/
def sync_history (label : String) (dialogs : List Dialog) (per_chat : Nat) : List MessageInsert :=
  match dialogs with
  | [] => []
  | d :: ds => backfillDialog label d per_chat ++ sync_history label ds per_chat

/-- A live `NewMessage` event as the handler reads it: the entities that
`event.get_sender()` / `event.get_chat()` resolve to (`none` when the lookup
fails to produce one), the message id, the (possibly absent) message date and
the raw text. -/
structure NewMessageEvent where
  senderEntity : Option Entity
  chatEntity : Option Entity
  messageId : Nat
  messageDate : Option Int
  rawText : Option String
deriving DecidableEq

/-- `handle_new_message` (main.py:146-167): normalizes the event and always
calls `insert_message` with `event.message.date or utc_now()` as `ts`
(`now` is the ingestion instant `utc_now()`). -/
def handle_new_message (label : String) (now : Int) (ev : NewMessageEvent) : MessageInsert :=
  { account_label := label
    thread_id := entityIdStr ev.chatEntity
    sender_id := entityIdStr ev.senderEntity
    sender_name := senderDisplayName ev.senderEntity
    text := ev.rawText
    ts := ev.messageDate.getD now
    metadata := { chat_title := ev.chatEntity.bind (fun c => c.title)
                  chat_username := ev.chatEntity.bind (fun c => c.username)
                  message_id := ev.messageId } }

/-- The effect of one live event on the messages store: exactly one row is
appended (the handler body ends in one `insert_message` call). -/
def liveCaptureStep (tbl : List MessageInsert) (label : String) (now : Int)
    (ev : NewMessageEvent) : List MessageInsert :=
  tbl ++ [handle_new_message label now ev]

/-! ## Message store rows and the search SQL

`SEARCH_SQL` / `COUNT_SQL` (main.py:176-200) filter `messages` with six
optional predicates and order by `ts DESC` with `LIMIT`/`OFFSET`.  SQL is
three-valued: every scalar predicate over a `NULL` operand is `NULL`
(unknown), `OR`/`AND` follow Kleene logic, and `WHERE` keeps exactly the
rows whose predicate is true.  The full-text machinery of the `'simple'`
configuration tokenizes into lowercased alphanumeric words (no stemming, no
stop words); `plainto_tsquery` builds the AND of the query's tokens and an
empty tsquery matches no document. -/

/-- One stored `messages` row as `SEARCH_SQL` selects it (the opaque
`metadata_json` column plays no role in filtering or ordering and is
omitted). -/
structure MessageRow where
  id : Nat
  source : String
  account_label : String
  thread_id : Option String
  sender_id : Option String
  sender_name : Option String
  text : Option String
  ts : Int
deriving DecidableEq

/-- A character the `'simple'` text-search parser keeps inside a token. -/
def isTokenChar (c : Char) : Bool := c.isAlpha || c.isDigit

/-- Token accumulator: first argument is the reversed current word. -/
def tokAux : List Char → List Char → List String
  | cur, [] => if cur.isEmpty then [] else [String.mk cur.reverse]
  | cur, c :: rest =>
    if isTokenChar c then tokAux (c.toLower :: cur) rest
    else if cur.isEmpty then tokAux [] rest
    else String.mk cur.reverse :: tokAux [] rest

/-- The `'simple'` configuration's normalization: split into maximal
alphanumeric words, lowercased. -/
def tokenize (s : String) : List String := tokAux [] s.toList

/-- `to_tsvector('simple', doc) @@ plainto_tsquery('simple', q)`: every token
of the query occurs among the document's tokens; an empty tsquery (a query
that normalizes to no tokens) matches nothing. -/
def tsMatch (doc : String) (q : String) : Bool :=
  !(tokenize q).isEmpty && (tokenize q).all (fun t => (tokenize doc).contains t)

/-- Kleene (SQL) three-valued OR. -/
def sqlOr : Option Bool → Option Bool → Option Bool
  | some true, _ => some true
  | _, some true => some true
  | some false, some false => some false
  | _, _ => none

/-- Kleene (SQL) three-valued AND. -/
def sqlAnd : Option Bool → Option Bool → Option Bool
  | some false, _ => some false
  | _, some false => some false
  | some true, some true => some true
  | _, _ => none

/-- The text clause of `SEARCH_SQL`/`COUNT_SQL`:
`($2::text = '' OR plainto_tsquery('simple', $2)::text = '' OR
to_tsvector('simple', coalesce(text, '')) @@ plainto_tsquery('simple', $2))`.
A `NULL` parameter makes each disjunct `NULL`. -/
def textClause (q : Option String) (text : Option String) : Option Bool :=
  sqlOr (q.map (fun s => s == ""))
    (sqlOr (q.map (fun s => (tokenize s).isEmpty))
      (q.map (fun s => tsMatch (text.getD "") s)))

/-- `($k::text IS NULL OR col = $k)` for a NOT NULL text column. -/
def filtEqText (p : Option String) (col : String) : Option Bool :=
  match p with
  | none => some true
  | some v => some (col == v)

/-- `($4::text IS NULL OR thread_id = $4)`; comparing a NULL column to a
non-null parameter is NULL. -/
def filtEqNullable (p : Option String) (col : Option String) : Option Bool :=
  match p with
  | none => some true
  | some v => col.map (fun c => c == v)

/-- `($5::timestamptz IS NULL OR ts >= $5)`. -/
def filtGe (p : Option Int) (ts : Int) : Option Bool :=
  match p with
  | none => some true
  | some v => some (v ≤ ts)

/-- `($6::timestamptz IS NULL OR ts <= $6)`. -/
def filtLe (p : Option Int) (ts : Int) : Option Bool :=
  match p with
  | none => some true
  | some v => some (ts ≤ v)

/-- The bound parameters `$1..$6` shared by `SEARCH_SQL` and `COUNT_SQL`. -/
structure Filters where
  source : Option String
  query : Option String
  account : Option String
  thread_id : Option String
  fromTs : Option Int
  toTs : Option Int
deriving DecidableEq

/-- The conjunction of the six WHERE clauses, in the SQL's order. -/
def rowPred (f : Filters) (r : MessageRow) : Option Bool :=
  sqlAnd (filtEqText f.source r.source)
    (sqlAnd (textClause f.query r.text)
      (sqlAnd (filtEqText f.account r.account_label)
        (sqlAnd (filtEqNullable f.thread_id r.thread_id)
          (sqlAnd (filtGe f.fromTs r.ts) (filtLe f.toTs r.ts)))))

/-- `WHERE`: the rows whose predicate evaluates to true (not false, not
NULL), in table order. -/
def sqlWhere (f : Filters) (tbl : List MessageRow) : List MessageRow :=
  tbl.filter (fun r => rowPred f r == some true)

/-- `COUNT_SQL`: its WHERE text is identical to `SEARCH_SQL`'s, so it counts
the same set. -/
def countQuery (f : Filters) (tbl : List MessageRow) : Nat :=
  (sqlWhere f tbl).length

/-- `ORDER BY ts DESC` promises only decreasing timestamps. -/
def sortedTsDesc (l : List MessageRow) : Prop :=
  l.Pairwise (fun a b => b.ts ≤ a.ts)

instance (l : List MessageRow) : Decidable (sortedTsDesc l) :=
  inferInstanceAs (Decidable (l.Pairwise (fun a b : MessageRow => b.ts ≤ a.ts)))

/-- The possible result pages of `SEARCH_SQL`: the SQL fixes the filtered
multiset and the timestamp-descending order, but nothing below it, so any
timestamp-sorted permutation of the filtered rows, cut by `OFFSET` then
`LIMIT`, is an admissible answer. -/
def pageValid (f : Filters) (tbl : List MessageRow) (limit offset : Nat)
    (out : List MessageRow) : Prop :=
  ∃ s, s.Perm (sqlWhere f tbl) ∧ sortedTsDesc s ∧ out = (s.drop offset).take limit

/-! ## The HTTP search handler (`handle_search`, main.py:209-261)

The request body is modelled at the granularity the handler reads it: the
whole body may be invalid JSON (`request.json()` raises and the handler
returns 400 before any store work), may be valid JSON that is not an object
(`body.get` then raises `AttributeError`, which no code catches — aiohttp's
default error handling turns an unhandled handler exception into a 500
response — and no store work happens either), or is an object whose fields
are absent, JSON null, or a value of the field's expected scalar type. -/

/-- One field of the JSON body object: `none` = key absent,
`some none` = explicit JSON null, `some (some v)` = a value. -/
structure BodyFields where
  source : Option (Option String)
  query : Option (Option String)
  account : Option (Option String)
  thread_id : Option (Option String)
  fromTs : Option (Option Int)
  toTs : Option (Option Int)
  limit : Option (Option Int)
  offset : Option (Option Int)
deriving DecidableEq

/-- `{}` — a body with every key absent. -/
def emptyBody : BodyFields :=
  { source := none, query := none, account := none, thread_id := none,
    fromTs := none, toTs := none, limit := none, offset := none }

/-- `body.get(key) or None` for a string field: absent key, explicit null
and the empty string are all falsy, yielding SQL NULL. -/
def orNoneStr : Option (Option String) → Option String
  | none => none
  | some none => none
  | some (some s) => if s == "" then none else some s

/-- `body.get("query", "")`: the default `""` applies only when the key is
absent; an explicit null is kept as `None` (there is no `or None` here). -/
def queryField : Option (Option String) → Option String
  | none => some ""
  | some none => none
  | some (some s) => some s

/-- `body.get(key) or None` for the from/to bounds (a present timestamp is a
non-empty string, hence truthy; modelled post-parse as the instant). -/
def orNoneTs : Option (Option Int) → Option Int
  | none => none
  | some none => none
  | some (some t) => some t

/-- `body.get(key)` for limit/offset: absent and null both give `None`. -/
def intField : Option (Option Int) → Option Int
  | none => none
  | some none => none
  | some (some n) => some n

/-- `_clamp` (main.py:203-206). -/
def _clamp (val : Option Int) (lo hi default : Int) : Int :=
  match val with
  | none => default
  | some v => max lo (min hi v)

/-- The six query parameters as `handle_search` binds them (main.py:217-222). -/
def extractFilters (b : BodyFields) : Filters :=
  { source := orNoneStr b.source
    query := queryField b.query
    account := orNoneStr b.account
    thread_id := orNoneStr b.thread_id
    fromTs := orNoneTs b.fromTs
    toTs := orNoneTs b.toTs }

/-- `_clamp(body.get("limit"), 1, 100, 20)`; the clamped value is in
`[1, 100]`, so `toNat` is exact. -/
def extractLimit (b : BodyFields) : Nat := (_clamp (intField b.limit) 1 100 20).toNat

/-- `_clamp(body.get("offset"), 0, 10000, 0)`. -/
def extractOffset (b : BodyFields) : Nat := (_clamp (intField b.offset) 0 10000 0).toNat

/-- The three body shapes the handler distinguishes. -/
inductive RawBody where
  | invalidJson
  | jsonNonObject
  | jsonObject (b : BodyFields)
deriving DecidableEq

/-- The handler's HTTP outcome. -/
inductive HResp where
  | clientError (status : Nat)
  | serverError (status : Nat)
  | ok (messages : List MessageRow) (total : Nat) (query : Option String) (src : String)
deriving DecidableEq

/-- Whether `handle_search` reaches `pool.acquire()` for this body. -/
def storeAccessed : RawBody → Bool
  | .invalidJson => false
  | .jsonNonObject => false
  | .jsonObject _ => true

/-- `handle_search` as a relation between the request, the store state and
the response (a relation because the page order below equal timestamps is
the store's choice): invalid JSON → 400; a non-object body raises in
`body.get` → 500 via aiohttp's default handling; otherwise the two queries
run — if the store fails, 500 with no data; if it succeeds, a 200 payload
carrying an admissible page, the count under the identical predicates, and
the echoed `query`/`source` fields. -/
def handle_search (raw : RawBody) (dbOk : Bool) (tbl : List MessageRow)
    (resp : HResp) : Prop :=
  match raw with
  | .invalidJson => resp = .clientError 400
  | .jsonNonObject => resp = .serverError 500
  | .jsonObject b =>
    if dbOk then
      ∃ out, pageValid (extractFilters b) tbl (extractLimit b) (extractOffset b) out ∧
        resp = .ok out (countQuery (extractFilters b) tbl) (queryField b.query)
          ((orNoneStr b.source).getD "all")
    else resp = .serverError 500

/-- The filters produced by the empty body `{}` (absent query defaults to
`""`, which the SQL treats as "no text constraint"). -/
def noFilters : Filters :=
  { source := none, query := some "", account := none, thread_id := none,
    fromTs := none, toTs := none }

/-- Two stored rows sharing the timestamp 5, and one strictly older row —
the store states used by the ordering/pagination checks. -/
def rowA : MessageRow :=
  { id := 1, source := "telegram", account_label := "tg1", thread_id := none,
    sender_id := none, sender_name := none, text := none, ts := 5 }

def rowB : MessageRow :=
  { id := 2, source := "telegram", account_label := "tg1", thread_id := none,
    sender_id := none, sender_name := none, text := none, ts := 5 }

def rowC : MessageRow :=
  { id := 3, source := "telegram", account_label := "tg1", thread_id := none,
    sender_id := none, sender_name := none, text := none, ts := 3 }

end Sidecar

namespace Sidecar

/-- C1: the claim says that repeating the upsert for a label never inserts an
additional row.  On the code's schema `accounts` has no unique constraint on
`(source, label)`, so `ON CONFLICT DO NOTHING` never fires: two successful
connections of account `tg1` leave TWO rows with label `tg1`. -/
theorem C1_reconnect_inserts_duplicate_row :
    (rowsWithLabel (ensure_account_row (ensure_account_row accountsEmpty "tg1" "+111") "tg1" "+111")
      "tg1").length = 2 := by decide

/-- C2: the claim says a connection-level error in one listener leaves the
siblings and the process running.  In the code, with two configured accounts
where the first raises an auth error, `gather` re-raises, the process exits
and the sibling listener is cancelled. -/
theorem C2_one_listener_error_exits_process :
    processExits [TaskResult.exn "AuthKeyError", TaskResult.ok] = true ∧
    siblingListenersSurvive [TaskResult.exn "AuthKeyError", TaskResult.ok] = false := by
  decide

/-- Unfolding equation for the message loop of `sync_history`. -/
theorem backfillLoop_cons (label : String) (d : Dialog) (m : HistMessage)
    (ms : List HistMessage) :
    backfillLoop label d (m :: ms) =
      match m.date with
      | none => backfillLoop label d ms
      | some t => backfillRow label d m t :: backfillLoop label d ms := rfl

/-- Every row the message loop writes stems from a message of the loop's
input that carries a date, and the row's `ts` is exactly that date. -/
theorem mem_backfillLoop_dated (label : String) (d : Dialog) :
    ∀ (ms : List HistMessage) (r : MessageInsert), r ∈ backfillLoop label d ms →
      ∃ m, m ∈ ms ∧ m.date = some r.ts := by
  intro ms
  induction ms with
  | nil => intro r h; simp [backfillLoop] at h
  | cons m ms ih =>
    intro r h
    rcases hd : m.date with _ | t
    · rw [backfillLoop_cons, hd] at h
      rcases ih r h with ⟨m', hm', hdate⟩
      exact ⟨m', List.mem_cons_of_mem _ hm', hdate⟩
    · rw [backfillLoop_cons, hd] at h
      rcases List.mem_cons.mp h with h | h
      · subst h; exact ⟨m, List.mem_cons_self _ _, hd⟩
      · rcases ih r h with ⟨m', hm', hdate⟩
        exact ⟨m', List.mem_cons_of_mem _ hm', hdate⟩

/-- Conversely, every dated message of the loop's input yields its row. -/
theorem backfillRow_mem_backfillLoop (label : String) (d : Dialog) :
    ∀ (ms : List HistMessage) (m : HistMessage) (t : Int), m ∈ ms → m.date = some t →
      backfillRow label d m t ∈ backfillLoop label d ms := by
  intro ms
  induction ms with
  | nil => intro m t h; simp at h
  | cons m0 ms ih =>
    intro m t hmem hdate
    rcases List.mem_cons.mp hmem with h | h
    · subst h
      rw [backfillLoop_cons, hdate]
      exact List.mem_cons_self _ _
    · rcases hd : m0.date with _ | t0 <;> rw [backfillLoop_cons, hd]
      · exact ih m t h hdate
      · exact List.mem_cons_of_mem _ (ih m t h hdate)

/-- Soundness half for whole-backfill: each written row has a dated origin. -/
theorem mem_sync_history_dated (label : String) :
    ∀ (ds : List Dialog) (k : Nat) (r : MessageInsert), r ∈ sync_history label ds k →
      ∃ d, d ∈ ds ∧ ∃ m, m ∈ d.msgs ∧ m.date = some r.ts := by
  intro ds
  induction ds with
  | nil => intro k r h; simp [sync_history] at h
  | cons d ds ih =>
    intro k r h
    rw [sync_history] at h
    rcases List.mem_append.mp h with h | h
    · rcases mem_backfillLoop_dated label d _ r h with ⟨m, hm, hdate⟩
      exact ⟨d, List.mem_cons_self _ _, m, List.take_subset _ _ hm, hdate⟩
    · rcases ih k r h with ⟨d', hd', rest⟩
      exact ⟨d', List.mem_cons_of_mem _ hd', rest⟩

/-- Completeness half for whole-backfill: every dated message among the first
`per_chat` yielded for its dialog is written with its own date. -/
theorem dated_mem_sync_history (label : String) :
    ∀ (ds : List Dialog) (k : Nat) (d : Dialog) (m : HistMessage) (t : Int),
      d ∈ ds → m ∈ d.msgs.take k → m.date = some t →
      backfillRow label d m t ∈ sync_history label ds k := by
  intro ds
  induction ds with
  | nil => intro k d m t h; simp at h
  | cons d0 ds ih =>
    intro k d m t hd hm hdate
    rw [sync_history]
    rcases List.mem_cons.mp hd with h | h
    · subst h
      exact List.mem_append_left _ (backfillRow_mem_backfillLoop label d _ m t hm hdate)
    · exact List.mem_append_right _ (ih k d m t h hm hdate)

/-- C3 counterexample: during backfill, an event whose origin omits the
timestamp is dropped, not written with a substituted ingestion time.  A
dialog with one undated historical message produces an empty backfill. -/
theorem C3_counterexample_undated_backfill_dropped :
    sync_history "tg1"
      [{ entId := 7, title := none, username := none,
         msgs := [{ msgId := 10, date := none, message := some "hi",
                    senderEntity := none }] }] 50 = [] := by
  decide

/-- C3 amended: every written Message row carries a timestamp; live capture
always writes, substituting the ingestion time when the origin omits the
date; backfill writes exactly the dated messages among the first `per_chat`
yielded per dialog, each with its origin timestamp — undated backfill events
are skipped rather than written with a substituted time. -/
theorem C3_amended_timestamp_semantics :
    (∀ (label : String) (now : Int) (tbl : List MessageInsert) (ev : NewMessageEvent),
        (liveCaptureStep tbl label now ev).length = tbl.length + 1 ∧
        (∀ t, ev.messageDate = some t → (handle_new_message label now ev).ts = t) ∧
        (ev.messageDate = none → (handle_new_message label now ev).ts = now)) ∧
    (∀ (label : String) (ds : List Dialog) (k : Nat) (r : MessageInsert),
        r ∈ sync_history label ds k →
        ∃ d, d ∈ ds ∧ ∃ m, m ∈ d.msgs ∧ m.date = some r.ts) ∧
    (∀ (label : String) (ds : List Dialog) (k : Nat) (d : Dialog) (m : HistMessage) (t : Int),
        d ∈ ds → m ∈ d.msgs.take k → m.date = some t →
        backfillRow label d m t ∈ sync_history label ds k) := by
  refine ⟨?_, ?_, ?_⟩
  · intro label now tbl ev
    refine ⟨by simp [liveCaptureStep], ?_, ?_⟩
    · intro t ht; simp [handle_new_message, ht]
    · intro ht; simp [handle_new_message, ht]
  · intro label ds k r h
    exact mem_sync_history_dated label ds k r h
  · intro label ds k d m t hd hm hdate
    exact dated_mem_sync_history label ds k d m t hd hm hdate

/-- Witness for the amended C3 on a concrete dialog with one dated message. -/
theorem C3_amended_witness :
    ∃ d, d ∈ [({ entId := 7, title := none, username := none,
                 msgs := [{ msgId := 11, date := some 42, message := some "yo",
                            senderEntity := none }] } : Dialog)] ∧
      ∃ m, m ∈ d.msgs ∧ m.date =
        some (backfillRow "tg1"
          { entId := 7, title := none, username := none,
            msgs := [{ msgId := 11, date := some 42, message := some "yo",
                       senderEntity := none }] }
          { msgId := 11, date := some 42, message := some "yo", senderEntity := none }
          42).ts :=
  C3_amended_timestamp_semantics.2.1 "tg1" _ 50 _ (by decide)

/-- C6: during live capture, metadata resolution is best-effort — a sender or
chat lookup that resolves to no entity yields null fields in the written row,
and the row is still written (the handler appends exactly one row). -/
theorem C6_lookup_failure_null_fields_row_written
    (label : String) (now : Int) (tbl : List MessageInsert) (ev : NewMessageEvent) :
    (liveCaptureStep tbl label now ev).length = tbl.length + 1 ∧
    (ev.senderEntity = none →
      (handle_new_message label now ev).sender_id = none ∧
      (handle_new_message label now ev).sender_name = none) ∧
    (ev.chatEntity = none →
      (handle_new_message label now ev).thread_id = none ∧
      (handle_new_message label now ev).metadata.chat_title = none ∧
      (handle_new_message label now ev).metadata.chat_username = none) := by
  refine ⟨by simp [liveCaptureStep], ?_, ?_⟩
  · intro h
    simp [handle_new_message, entityIdStr, senderDisplayName, pyOrStr, h]
  · intro h
    simp [handle_new_message, entityIdStr, h]

/-- Witness for C6 on a concrete event whose both lookups fail. -/
theorem C6_witness :
    (handle_new_message "tg1" 100
        { senderEntity := none, chatEntity := none, messageId := 5,
          messageDate := none, rawText := some "hello" }).sender_id = none ∧
    (handle_new_message "tg1" 100
        { senderEntity := none, chatEntity := none, messageId := 5,
          messageDate := none, rawText := some "hello" }).sender_name = none :=
  (C6_lookup_failure_null_fields_row_written "tg1" 100 []
    { senderEntity := none, chatEntity := none, messageId := 5,
      messageDate := none, rawText := some "hello" }).2.1 rfl

/-! ## Search: clamping, error handling, ordering, pagination -/

/-- C9: `limit` is clamped into [1, 100] with default 20 and `offset` into
[0, 10000] with default 0; out-of-range values are silently clamped
(`limit=500` → 100, `limit=0` → 1, `offset=-5` → 0) and in-range values are
taken as given. -/
theorem C9_pagination_clamped :
    extractLimit emptyBody = 20 ∧
    extractOffset emptyBody = 0 ∧
    extractLimit { emptyBody with limit := some (some 500) } = 100 ∧
    extractLimit { emptyBody with limit := some (some 0) } = 1 ∧
    extractOffset { emptyBody with offset := some (some (-5)) } = 0 ∧
    (∀ v : Int, 1 ≤ _clamp (some v) 1 100 20 ∧ _clamp (some v) 1 100 20 ≤ 100) ∧
    (∀ v : Int, 0 ≤ _clamp (some v) 0 10000 0 ∧ _clamp (some v) 0 10000 0 ≤ 10000) ∧
    (∀ v : Int, 1 ≤ v → v ≤ 100 → _clamp (some v) 1 100 20 = v) ∧
    (∀ v : Int, 0 ≤ v → v ≤ 10000 → _clamp (some v) 0 10000 0 = v) := by
  refine ⟨by decide, by decide, by decide, by decide, by decide, ?_, ?_, ?_, ?_⟩ <;>
    intro v <;> simp [_clamp] <;> omega

/-- Witness for C9's in-range clauses at `limit=50`, `offset=7`. -/
theorem C9_witness :
    _clamp (some 50) 1 100 20 = 50 ∧ _clamp (some 7) 0 10000 0 = 7 :=
  ⟨C9_pagination_clamped.2.2.2.2.2.2.2.1 50 (by decide) (by decide),
   C9_pagination_clamped.2.2.2.2.2.2.2.2 7 (by decide) (by decide)⟩

/-- C8 counterexample: a malformed payload that is valid JSON but not an
object (e.g. the body `[1, 2]`) makes `body.get` raise `AttributeError`,
which surfaces as a server error (500), not a client error — though indeed
with no store access. -/
theorem C8_counterexample_non_object_body_is_server_error :
    handle_search RawBody.jsonNonObject true [] (HResp.serverError 500) ∧
    ¬ handle_search RawBody.jsonNonObject true [] (HResp.clientError 400) ∧
    storeAccessed RawBody.jsonNonObject = false := by
  refine ⟨rfl, ?_, rfl⟩
  intro h
  exact HResp.noConfusion (show HResp.clientError 400 = HResp.serverError 500 from h)

/-- C8 amended: a syntactically invalid JSON body yields a client error
(400) with no store access attempted; a valid-JSON body that is not an
object also triggers no store access but surfaces as a server error (500,
an unhandled `AttributeError`); a store failure yields a server error (500)
with no partial data. -/
theorem C8_amended_error_handling :
    (∀ (dbOk : Bool) (tbl : List MessageRow) (resp : HResp),
        handle_search RawBody.invalidJson dbOk tbl resp → resp = HResp.clientError 400) ∧
    storeAccessed RawBody.invalidJson = false ∧
    (∀ (dbOk : Bool) (tbl : List MessageRow) (resp : HResp),
        handle_search RawBody.jsonNonObject dbOk tbl resp → resp = HResp.serverError 500) ∧
    storeAccessed RawBody.jsonNonObject = false ∧
    (∀ (b : BodyFields) (tbl : List MessageRow) (resp : HResp),
        handle_search (RawBody.jsonObject b) false tbl resp → resp = HResp.serverError 500) := by
  refine ⟨?_, rfl, ?_, rfl, ?_⟩
  · intro dbOk tbl resp h; exact h
  · intro dbOk tbl resp h; exact h
  · intro b tbl resp h; simpa [handle_search] using h

/-- Witness for the amended C8 at concrete requests. -/
theorem C8_witness :
    HResp.clientError 400 = HResp.clientError 400 ∧
    HResp.serverError 500 = HResp.serverError 500 :=
  ⟨C8_amended_error_handling.1 true [] (HResp.clientError 400) rfl,
   C8_amended_error_handling.2.2.2.2 emptyBody [] (HResp.serverError 500) rfl⟩

/-- C4 counterexample: `SEARCH_SQL` orders by `ts DESC` only — there is no
id tiebreaker in the SQL — so a page listing two equal-timestamp rows in
ASCENDING id order is an admissible result. -/
theorem C4_counterexample_ties_not_ordered_by_id :
    pageValid noFilters [rowA, rowB] 20 0 [rowA, rowB] ∧
    ¬ [rowA, rowB].Pairwise (fun a b => b.ts < a.ts ∨ (a.ts = b.ts ∧ b.id < a.id)) := by
  constructor
  · exact ⟨[rowA, rowB], by decide, by decide, rfl⟩
  · decide

/-- C4 amended: every admissible result page is sorted by timestamp
descending; rows with equal timestamps may appear in any relative order
(the SQL carries no id tiebreaker, so the order is not deterministic). -/
theorem C4_amended_page_sorted_ts_desc (f : Filters) (tbl : List MessageRow)
    (limit offset : Nat) (out : List MessageRow)
    (h : pageValid f tbl limit offset out) : sortedTsDesc out := by
  rcases h with ⟨s, _, hsort, hout⟩
  subst hout
  exact hsort.sublist ((List.take_sublist _ _).trans (List.drop_sublist _ _))

/-- Witness for the amended C4 on a concrete two-row store. -/
theorem C4_witness : sortedTsDesc [rowA] :=
  C4_amended_page_sorted_ts_desc noFilters [rowA, rowB] 1 0 [rowA]
    ⟨[rowA, rowB], by decide, by decide, rfl⟩

/-- C5 counterexample: with two rows sharing a timestamp and `L = 1`, the
two successive queries may sort the tie differently, so the page at
`offset=0` and the page at `offset=1` can BOTH be `[rowA]` — id 1 appears in
both pages. -/
theorem C5_counterexample_pages_can_overlap_on_ties :
    pageValid noFilters [rowA, rowB] 1 0 [rowA] ∧
    pageValid noFilters [rowA, rowB] 1 1 [rowA] ∧
    rowA.id ∈ [rowA].map MessageRow.id := by
  refine ⟨⟨[rowA, rowB], by decide, by decide, rfl⟩,
          ⟨[rowB, rowA], by decide, by decide, rfl⟩, by decide⟩

/-- A timestamp-sorted list with pairwise-distinct timestamps is strictly
sorted. -/
theorem sortedTsDesc_strict {s : List MessageRow} (h : sortedTsDesc s)
    (hn : (s.map MessageRow.ts).Nodup) : s.Pairwise (fun a b => b.ts < a.ts) := by
  have hne : s.Pairwise (fun a b => a.ts ≠ b.ts) := List.pairwise_map.mp hn
  exact (h.and hne).imp (fun hab => lt_of_le_of_ne hab.1 (fun e => hab.2 e.symm))

/-- C5 amended: the two pages are disjoint whenever no two matching rows
share a timestamp (then the `ts DESC` order is a total order and both
queries observe the same sorted sequence); with equal timestamps the SQL
fixes no tiebreak and overlap is possible. -/
theorem C5_amended_pages_disjoint (f : Filters) (tbl : List MessageRow) (L : Nat)
    (out0 out1 : List MessageRow)
    (hts : ((sqlWhere f tbl).map MessageRow.ts).Nodup)
    (hid : ((sqlWhere f tbl).map MessageRow.id).Nodup)
    (h0 : pageValid f tbl L 0 out0) (h1 : pageValid f tbl L L out1) :
    ∀ i, i ∈ out0.map MessageRow.id → i ∉ out1.map MessageRow.id := by
  rcases h0 with ⟨s0, hp0, hs0, ho0⟩
  rcases h1 with ⟨s1, hp1, hs1, ho1⟩
  have hts0 : (s0.map MessageRow.ts).Nodup := ((hp0.map MessageRow.ts).nodup_iff).mpr hts
  have hts1 : (s1.map MessageRow.ts).Nodup := ((hp1.map MessageRow.ts).nodup_iff).mpr hts
  have hstrict0 := sortedTsDesc_strict hs0 hts0
  have hstrict1 := sortedTsDesc_strict hs1 hts1
  haveI : IsAntisymm MessageRow (fun a b => b.ts < a.ts) :=
    ⟨fun a b h1 h2 => absurd (h1.trans h2) (lt_irrefl _)⟩
  have hs0s1 : s0 = s1 :=
    List.eq_of_perm_of_sorted (hp0.trans hp1.symm) hstrict0 hstrict1
  subst hs0s1
  have hid0 : (s0.map MessageRow.id).Nodup := ((hp0.map MessageRow.id).nodup_iff).mpr hid
  have hsplit : s0.map MessageRow.id =
      (s0.take L).map MessageRow.id ++ (s0.drop L).map MessageRow.id := by
    rw [← List.map_append, List.take_append_drop]
  rw [hsplit] at hid0
  have hdisj := (List.nodup_append.mp hid0).2.2
  intro i hi0 hi1
  have hi0' : i ∈ (s0.take L).map MessageRow.id := by
    rw [ho0, List.drop_zero] at hi0
    exact hi0
  have hi1' : i ∈ (s0.drop L).map MessageRow.id := by
    rw [ho1] at hi1
    exact ((List.take_sublist _ _).map MessageRow.id).subset hi1
  exact hdisj hi0' hi1'

/-- Witness for the amended C5 on a store with distinct timestamps. -/
theorem C5_witness : rowA.id ∉ [rowC].map MessageRow.id :=
  C5_amended_pages_disjoint noFilters [rowA, rowC] 1 [rowA] [rowC]
    (by decide) (by decide)
    ⟨[rowA, rowC], by decide, by decide, rfl⟩
    ⟨[rowA, rowC], by decide, by decide, rfl⟩
    rowA.id (by decide)

/-! ## Text-filter semantics -/

theorem sqlOr_some_some : ∀ x y : Bool, sqlOr (some x) (some y) = some (x || y) := by
  decide

theorem sqlAnd_eq_true_iff :
    ∀ a b : Option Bool, (sqlAnd a b = some true ↔ a = some true ∧ b = some true) := by
  decide

/-- The text clause on a non-NULL query parameter, computed. -/
theorem textClause_some (q : String) (txt : Option String) :
    textClause (some q) txt =
      some ((q == "") || ((tokenize q).isEmpty || tsMatch (txt.getD "") q)) := by
  simp [textClause, sqlOr_some_some]

/-- A whitespace character is never kept inside a token. -/
theorem isTokenChar_eq_false_of_whitespace {c : Char} (h : c.isWhitespace = true) :
    isTokenChar c = false := by
  simp [Char.isWhitespace] at h
  rcases h with ((rfl | rfl) | rfl) | rfl <;> decide

/-- Input without any token character produces no tokens. -/
theorem tokAux_nil_of_no_token :
    ∀ l : List Char, (∀ c ∈ l, isTokenChar c = false) → tokAux [] l = [] := by
  intro l
  induction l with
  | nil => intro h; rfl
  | cons c rest ih =>
    intro h
    have hc := h c (List.mem_cons_self _ _)
    simp only [tokAux, hc, if_false, List.isEmpty_nil, if_true, Bool.false_eq_true]
    exact ih (fun c' hc' => h c' (List.mem_cons_of_mem _ hc'))

/-- A whitespace-only string normalizes to no tokens. -/
theorem tokenize_eq_nil_of_whitespace {s : String}
    (h : s.toList.all Char.isWhitespace = true) : tokenize s = [] :=
  tokAux_nil_of_no_token s.toList
    (fun c hc => isTokenChar_eq_false_of_whitespace (List.all_eq_true.mp h c hc))

/-- A query with tokens is not the empty string. -/
theorem beq_empty_eq_false_of_tokens {q : String} (hq : tokenize q ≠ []) :
    (q == "") = false := by
  rcases hqe : (q == "") with _ | _
  · rfl
  · exfalso
    have hq' : q = "" := by simpa using hqe
    rw [hq'] at hq
    exact hq rfl

/-- For a query with at least one token, the text clause is true exactly when
every query token occurs among the document's tokens. -/
theorem textClause_true_iff (q : String) (txt : Option String) (hq : tokenize q ≠ []) :
    (textClause (some q) txt = some true ↔
      ∀ t ∈ tokenize q, t ∈ tokenize (txt.getD "")) := by
  have hqi : (tokenize q).isEmpty = false := by
    simp [List.isEmpty_iff, hq]
  rw [textClause_some, beq_empty_eq_false_of_tokens hq, hqi]
  simp [tsMatch, hqi, List.all_eq_true, List.elem_iff]

/-- The WHERE text conjunct of a passing row is itself true. -/
theorem textClause_of_rowPred_true (f : Filters) (r : MessageRow)
    (h : rowPred f r = some true) : textClause f.query r.text = some true := by
  have h2 := ((sqlAnd_eq_true_iff _ _).mp h).2
  exact ((sqlAnd_eq_true_iff _ _).mp h2).1

/-- C7: an empty or whitespace-only query imposes no text constraint; a
query carrying tokens matches exactly the documents containing all of its
normalized tokens (token containment, not substring); a null-text row never
matches a tokenized query; and a tokenized query none of whose tokens is
stored yields zero rows and `total = 0` (the count runs the identical
predicates). -/
theorem C7_query_text_semantics :
    (∀ (q : String) (txt : Option String), q.toList.all Char.isWhitespace = true →
        textClause (some q) txt = some true) ∧
    (∀ (q : String) (txt : Option String), tokenize q ≠ [] →
        (textClause (some q) txt = some true ↔
          ∀ t ∈ tokenize q, t ∈ tokenize (txt.getD ""))) ∧
    (∀ q : String, tokenize q ≠ [] → textClause (some q) none = some false) ∧
    (∀ (f : Filters) (tbl : List MessageRow) (q : String),
        f.query = some q → tokenize q ≠ [] →
        (∀ r ∈ tbl, ∀ t ∈ tokenize q, t ∉ tokenize (r.text.getD "")) →
        sqlWhere f tbl = [] ∧ countQuery f tbl = 0 ∧
        ∀ (L O : Nat) (out : List MessageRow), pageValid f tbl L O out → out = []) := by
  refine ⟨?_, textClause_true_iff, ?_, ?_⟩
  · intro q txt hws
    rw [textClause_some, tokenize_eq_nil_of_whitespace hws]
    simp
  · intro q hq
    have hqi : (tokenize q).isEmpty = false := by
      simp [List.isEmpty_iff, hq]
    rw [textClause_some, beq_empty_eq_false_of_tokens hq, hqi]
    have hnil : tokenize "" = [] := rfl
    have hm : tsMatch "" q = false := by
      rcases htk : tokenize q with _ | ⟨t, ts⟩
      · exact absurd htk hq
      · simp [tsMatch, htk, hnil, List.contains]
    simpa using hm
  · intro f tbl q hfq hq hnone
    have hempty : sqlWhere f tbl = [] := by
      rw [sqlWhere, List.filter_eq_nil_iff]
      intro r hr hpred
      have hpred' : rowPred f r = some true := by simpa using hpred
      have htc := textClause_of_rowPred_true f r hpred'
      rw [hfq] at htc
      have hall := (textClause_true_iff q r.text hq).mp htc
      rcases List.exists_mem_of_ne_nil _ hq with ⟨t, ht⟩
      exact hnone r hr t ht (hall t ht)
    refine ⟨hempty, by simp [countQuery, hempty], ?_⟩
    intro L O out hpage
    rcases hpage with ⟨s, hperm, _, hout⟩
    rw [hempty] at hperm
    rw [hout, List.Perm.eq_nil hperm]
    simp

/-- Witness for C7 at concrete queries and a one-row store with null text. -/
theorem C7_witness :
    textClause (some "  ") (some "hello") = some true ∧
    (textClause (some "Hello") (some "say hello!") = some true ↔
      ∀ t ∈ tokenize "Hello", t ∈ tokenize "say hello!") ∧
    textClause (some "zzz") none = some false ∧
    sqlWhere { source := none, query := some "zzz", account := none, thread_id := none,
               fromTs := none, toTs := none } [rowA] = [] :=
  ⟨C7_query_text_semantics.1 "  " (some "hello") (by decide),
   C7_query_text_semantics.2.1 "Hello" (some "say hello!") (by decide),
   C7_query_text_semantics.2.2.1 "zzz" (by decide),
   (C7_query_text_semantics.2.2.2
     { source := none, query := some "zzz", account := none, thread_id := none,
       fromTs := none, toTs := none } [rowA] "zzz" rfl (by decide) (by decide)).1⟩

/-- C10: a body whose `"query"` key holds an explicit JSON null binds the
query parameter as SQL NULL (the `body.get("query", "")` default applies
only to an absent key); every disjunct of the text clause is then NULL, so
no row satisfies the WHERE and both the page and the count are empty —
unlike an absent query, which matches every row. -/
theorem C10_explicit_null_query_returns_nothing :
    (∀ txt : Option String, textClause none txt = none) ∧
    queryField (some none) = none ∧
    (∀ tbl : List MessageRow,
        sqlWhere (extractFilters { emptyBody with query := some none }) tbl = [] ∧
        countQuery (extractFilters { emptyBody with query := some none }) tbl = 0) ∧
    (∀ (tbl : List MessageRow) (L O : Nat) (out : List MessageRow),
        pageValid (extractFilters { emptyBody with query := some none }) tbl L O out →
        out = []) ∧
    (∀ tbl : List MessageRow, sqlWhere (extractFilters emptyBody) tbl = tbl) := by
  have hnullq : ∀ txt : Option String, textClause none txt = none := fun txt => rfl
  have hempty : ∀ tbl : List MessageRow,
      sqlWhere (extractFilters { emptyBody with query := some none }) tbl = [] := by
    intro tbl
    rw [sqlWhere, List.filter_eq_nil_iff]
    intro r hr hpred
    have hpred' : rowPred (extractFilters { emptyBody with query := some none }) r =
        some true := by simpa using hpred
    have htc := textClause_of_rowPred_true _ r hpred'
    rw [show (extractFilters { emptyBody with query := some none }).query = none from rfl,
        hnullq] at htc
    exact Option.noConfusion htc
  refine ⟨hnullq, rfl, fun tbl => ⟨hempty tbl, by simp [countQuery, hempty tbl]⟩, ?_, ?_⟩
  · intro tbl L O out hpage
    rcases hpage with ⟨s, hperm, _, hout⟩
    rw [hempty tbl] at hperm
    rw [hout, List.Perm.eq_nil hperm]
    simp
  · intro tbl
    rw [sqlWhere, List.filter_eq_self]
    intro r hr
    simp [rowPred, extractFilters, emptyBody, orNoneStr, queryField, orNoneTs, intField,
      filtEqText, filtEqNullable, filtGe, filtLe, textClause_some, sqlAnd]

/-- Witness for C10 on a concrete one-row store. -/
theorem C10_witness : ([] : List MessageRow) = [] :=
  C10_explicit_null_query_returns_nothing.2.2.2.1 [rowA] 20 0 []
    ⟨[], by decide, by decide, rfl⟩

end Sidecar
